import Mathlib

/-!
Verification of the `envs-var-validator` repository: a shallow embedding of
`src/envs/index.ts` (the joi-based environment-variable validator) and of
`src/scripts/post_install.sh` (the installer / dependency reconciler),
together with theorems settling the specification's claims.
-/

instance {ε α : Type} [DecidableEq ε] [DecidableEq α] : DecidableEq (Except ε α) :=
  fun a b =>
    match a, b with
    | Except.error e, Except.error f =>
      if h : e = f then isTrue (by rw [h]) else isFalse (fun hh => h (Except.error.inj hh))
    | Except.ok x, Except.ok y =>
      if h : x = y then isTrue (by rw [h]) else isFalse (fun hh => h (Except.ok.inj hh))
    | Except.error _, Except.ok _ => isFalse (fun hh => Except.noConfusion hh)
    | Except.ok _, Except.error _ => isFalse (fun hh => Except.noConfusion hh)

namespace EnvsVal

/-! ## JavaScript string splitting

`src/envs/index.ts` line 21 computes `process.env.NATS_SERVERS?.split(",")`.
JavaScript's `String.prototype.split` with a one-character separator:
`"".split(",") = [""]`, `"a,b".split(",") = ["a","b"]`, and a string with no
separator yields a one-element list.  We embed it on character lists. -/

def splitOnChar (sep : Char) : List Char → List (List Char)
  | [] => [[]]
  | c :: rest =>
    let r := splitOnChar sep rest
    if c = sep then [] :: r
    else
      match r with
      | [] => [[c]]
      | h :: t => (c :: h) :: t

def jsSplitComma (s : String) : List String :=
  (splitOnChar ',' s.data).map (fun l => String.mk l)

/-- `cut -d SEP -f1`: the text before the first separator (the whole string
when the separator does not occur).  Used by the installer embedding below. -/
def cutFirstField (sep : Char) (s : String) : String :=
  String.mk ((splitOnChar sep s.data).headD [])

/-! ## joi number coercion

`PORT: joi.number().required()` with joi's default `convert: true` coerces a
string to a number exactly when it matches joi's numeric pattern
(optional surrounding whitespace, optional sign, digits with an optional
decimal point — `\d+(\.\d*)?` or `\.\d+` — and an optional exponent), and
the coerced value is the decimal value the digits denote.  We embed JS
numbers as rationals; no claim depends on binary floating-point rounding. -/

def isJsWs (c : Char) : Bool :=
  c == ' ' || c == '\t' || c == '\n' || c == '\r' || c == '\x0b' || c == '\x0c'

def digitsToNat (l : List Char) : Nat :=
  l.foldl (fun a c => a * 10 + (c.toNat -('0').toNat)) 0

/-- The value denoted by sign, integer digits, fraction digits and exponent:
`sign * intD.fracD * 10 ^ e`, built with `mkRat` so that it evaluates by
kernel reduction. -/
def ratOfParts (sign : Int) (intD fracD : List Char) (e : Int) : Rat :=
  let n : Int := sign * (digitsToNat (intD ++ fracD) : Int)
  if 0 ≤ e then mkRat (n * (10 : Int) ^ e.toNat) ((10 : Nat) ^ fracD.length)
  else mkRat n ((10 : Nat) ^ (fracD.length + (-e).toNat))

/-- Parse the optional exponent part followed by trailing whitespace only;
`none` when the tail is not of that shape. -/
def parseExpAndEnd (l : List Char) : Option Int :=
  if l.all isJsWs then some 0
  else
    match l with
    | [] => none
    | c :: rest =>
      if c == 'e' || c == 'E' then
        match rest with
        | [] => none
        | c2 :: r2 =>
          let esign : Int := if c2 == '-' then -1 else 1
          let body := if c2 == '+' || c2 == '-' then r2 else c2 :: r2
          let ds := body.takeWhile Char.isDigit
          let tail := body.dropWhile Char.isDigit
          if ds.isEmpty then none
          else if tail.all isJsWs then some (esign * (digitsToNat ds : Int))
          else none
      else none

/-- joi's string-to-number coercion: `some` of the denoted rational when the
string matches the numeric pattern, `none` otherwise (in which case
`joi.number()` reports `"PORT" must be a number`). -/
def parseJoiNumber (s : String) : Option Rat :=
  let l0 := s.data.dropWhile isJsWs
  match l0 with
  | [] => none
  | c0 :: r0 =>
    let sign : Int := if c0 == '-' then -1 else 1
    let l := if c0 == '+' || c0 == '-' then r0 else c0 :: r0
    let intD := l.takeWhile Char.isDigit
    let l1 := l.dropWhile Char.isDigit
    match l1 with
    | [] => if intD.isEmpty then none else some (ratOfParts sign intD [] 0)
    | c :: r =>
      if c == '.' then
        let fracD := r.takeWhile Char.isDigit
        let l2 := r.dropWhile Char.isDigit
        if intD.isEmpty && fracD.isEmpty then none
        else
          match parseExpAndEnd l2 with
          | none => none
          | some e => some (ratOfParts sign intD fracD e)
      else
        if intD.isEmpty then none
        else
          match parseExpAndEnd (c :: r) with
          | none => none
          | some e => some (ratOfParts sign intD [] e)

/-! ## The raw environment snapshot and the schema -/

/-- The raw process environment at the moment `src/envs/index.ts` loads:
the three schema-declared variables (each possibly absent) plus every other
variable, which the schema (`.unknown(true)`) lets pass through. -/
structure RawEnv where
  PORT : Option String
  NATS_SERVERS : Option String
  DB_URI : Option String
  extras : List (String × String)
deriving Repr, DecidableEq

/-- The object passed to `envsSchema.validate`:
`{ ...process.env, NATS_SERVERS: process.env.NATS_SERVERS?.split(",") }`. -/
structure TransformedEnv where
  PORT : Option String
  NATS_SERVERS : Option (List String)
  DB_URI : Option String
  extras : List (String × String)
deriving Repr, DecidableEq

/-- `process.env.NATS_SERVERS?.split(",")`: optional chaining, so absence
propagates. -/
def natsSplit : Option String → Option (List String)
  | none => none
  | some s => some (jsSplitComma s)

def transformEnv (raw : RawEnv) : TransformedEnv :=
  { PORT := raw.PORT
    NATS_SERVERS := natsSplit raw.NATS_SERVERS
    DB_URI := raw.DB_URI
    extras := raw.extras }

/-- The validated value, the `EnvVars` interface of `src/envs/index.ts`. -/
structure EnvVars where
  PORT : Rat
  NATS_SERVERS : List String
  DB_URI : String
deriving Repr, DecidableEq

/-- The exported `envs` object of `src/envs/index.ts`: exactly the three
renamed fields. -/
structure Config where
  port : Rat
  nats_servers : List String
  db_uri : String
deriving Repr, DecidableEq

/-- The index of the first empty string in a list, the way joi's item
validation walks `NATS_SERVERS` (a `joi.string()` item rejects the empty
string with `string.empty`). -/
def firstEmptyIdx : List String → Nat → Option Nat
  | [], _ => none
  | s :: rest, i => if s = "" then some i else firstEmptyIdx rest (i + 1)

/-- `envsSchema.validate` (lines 11-22 of `src/envs/index.ts`) on the
transformed object, with joi's defaults (`convert: true`, `abortEarly:
true`): keys are checked in schema order PORT, NATS_SERVERS, DB_URI, and the
first violation is reported.  `.unknown(true)` means `extras` is never
inspected.  On success it returns the coerced value. -/
def envsSchemaValidate (o : TransformedEnv) : Except String EnvVars :=
  match o.PORT with
  | none => Except.error "\"PORT\" is required"
  | some p =>
    match parseJoiNumber p with
    | none => Except.error "\"PORT\" must be a number"
    | some port =>
      match o.NATS_SERVERS with
      | none => Except.error "\"NATS_SERVERS\" is required"
      | some servers =>
        match firstEmptyIdx servers 0 with
        | some i =>
          Except.error ("\"NATS_SERVERS[" ++ toString i ++ "]\" is not allowed to be empty")
        | none =>
          match o.DB_URI with
          | none => Except.error "\"DB_URI\" is required"
          | some d =>
            if d = "" then Except.error "\"DB_URI\" is not allowed to be empty"
            else Except.ok { PORT := port, NATS_SERVERS := servers, DB_URI := d }

/-- The whole module `src/envs/index.ts` as a function of the raw snapshot:
pre-transform, validate, on error throw
`Error("config validation error: " + error.message)`, on success export
`{ port, nats_servers, db_uri }`. -/
def envs (raw : RawEnv) : Except String Config :=
  match envsSchemaValidate (transformEnv raw) with
  | Except.error e => Except.error ("config validation error: " ++ e)
  | Except.ok v =>
    Except.ok { port := v.PORT, nats_servers := v.NATS_SERVERS, db_uri := v.DB_URI }

/-! ## Installer: `src/scripts/post_install.sh`

The script runs from inside `node_modules/<package>`: it copies the template
(`mkdir -p ../../src/envs && cp envs/index.ts ../../src/envs/index.ts`, an
idempotent overwrite of a file the package ships, modelled as succeeding),
changes to `../../`, detects the package manager there, checks the two
manifests, computes the missing dependencies and runs at most one install
command.  The filesystem is modelled by the chain of ancestor directories of
the script's starting directory: `fs k` is the directory `k` levels up. -/

/-- A `package.json`: the two dependency sections as ordered
name/version-specifier lists. -/
structure PackageJson where
  dependencies : List (String × String)
  devDependencies : List (String × String)
deriving Repr, DecidableEq

/-- What the script can observe about one directory. -/
structure DirState where
  packageJson : Option PackageJson
  hasYarnLock : Bool
  hasPnpmLock : Bool
  hasPnpmWorkspace : Bool
  hasNodeModules : Bool
  hasPackageLockJson : Bool
  envsValidatorPackageJson : Option PackageJson
deriving Repr, DecidableEq

/-- The condition `[ -f "pnpm-lock.yaml" ||  -f "pnpm-workspace.yaml" ]` of
`detect_package_manager`.  `||` is a shell command separator, not a `test`
operator, so bash runs `[ -f "pnpm-lock.yaml"` (which fails with
missing-bracket, exit 2) and then `-f "pnpm-workspace.yaml" ]` (command not
found, exit 127): the condition is false regardless of which files exist. -/
def pnpmBracketTest (_ : DirState) : Bool :=
  false

/-- `detect_package_manager` (lines 10-25 of the script): `yarn.lock` wins,
then the (broken, see `pnpmBracketTest`) pnpm check, default `npm`. -/
def detect_package_manager (d : DirState) : String :=
  if d.hasYarnLock then "yarn"
  else if pnpmBracketTest d then "pnpm"
  else "npm"

/-- `get_dependencies`: the `"key@value"` lines of one dependency section of
a manifest (empty output when the section name is not one of the two). -/
def get_dependencies (pj : PackageJson) (deps_type : String) : List String :=
  let entries :=
    if deps_type = "dependencies" then pj.dependencies
    else if deps_type = "devDependencies" then pj.devDependencies
    else []
  entries.map (fun kv => kv.1 ++ "@" ++ kv.2)

/-- `dependency_exists`: the name occurs as a key of `dependencies` or of
`devDependencies` of the main manifest. -/
def dependency_exists (dep_name : String) (main : PackageJson) : Bool :=
  main.dependencies.any (fun kv => kv.1 = dep_name)
    || main.devDependencies.any (fun kv => kv.1 = dep_name)

/-- The `MISSING_DEPS` loop: walk the concatenated `dependencies` then
`devDependencies` lines of this package's own manifest, skip empty lines,
take the name before the first `@` (`cut -d'@' -f1`) and keep the line when
`dependency_exists` fails on the main manifest. -/
def MISSING_DEPS (own main : PackageJson) : List String :=
  (get_dependencies own "dependencies" ++ get_dependencies own "devDependencies").filter
    (fun dep => (dep != "") && ! dependency_exists (cutFirstField '@' dep) main)

/-- Outcome of a run of the script. -/
inductive ScriptResult where
  | exited (code : Nat) (diagnostic : String)
  | installed (pm : String) (verb : String) (deps : List String)
  | alreadySatisfied
deriving Repr, DecidableEq

/-- Lines 105-128 of the script: when `MISSING_DEPS` is non-empty, one
`case` on the detected manager runs a single add/install command with the
whole list; otherwise it reports that everything is already installed. -/
def installStep (pm : String) (missing : List String) : ScriptResult :=
  if missing = [] then ScriptResult.alreadySatisfied
  else if pm = "yarn" then ScriptResult.installed "yarn" "add" missing
  else if pm = "pnpm" then ScriptResult.installed "pnpm" "add" missing
  else if pm = "npm" then ScriptResult.installed "npm" "install" missing
  else ScriptResult.exited 1 ("Unknown package manager: " ++ pm)

/-- The whole script as a function of the ancestor chain `fs` (`fs k` is the
directory `k` levels above the starting directory).  After `cd ../../` every
path is relative to `fs 2`: the package manager is detected there, the main
manifest is `fs 2`'s `package.json`, and this package's own manifest is
`node_modules/envs-var-validator/package.json` inside `fs 2`. -/
def runPostInstall (fs : Nat → DirState) : ScriptResult :=
  let root := fs 2
  let pm := detect_package_manager root
  match root.packageJson with
  | none => ScriptResult.exited 1 "Error: Main package.json not found in root directory"
  | some main =>
    match root.envsValidatorPackageJson with
    | none =>
      ScriptResult.exited 1
        "Error: Current package.json not found at node_modules/envs-var-validator/package.json"
    | some own => installStep pm (MISSING_DEPS own main)

/-- Modelled from the spec (§4.2 project-root location), for comparison with
`runPostInstall`, the embedding of the code: a directory is a project root
when it simultaneously has a manifest, a dependency-storage directory and at
least one recognized lockfile. -/
def isProjectRoot (d : DirState) : Bool :=
  d.packageJson.isSome && d.hasNodeModules
    && (d.hasYarnLock || d.hasPnpmLock || d.hasPackageLockJson)

/-- Modelled from the spec (§4.2, §8): search upward from the current
directory, through at most `bound` parent traversals, for the first ancestor
that `isProjectRoot` accepts. -/
def specProjectRootSearch (fs : Nat → DirState) (bound : Nat) : Option Nat :=
  (List.range (bound + 1)).find? (fun k => isProjectRoot (fs k))

/-- A directory with nothing in it. -/
def emptyDir : DirState :=
  { packageJson := none
    hasYarnLock := false
    hasPnpmLock := false
    hasPnpmWorkspace := false
    hasNodeModules := false
    hasPackageLockJson := false
    envsValidatorPackageJson := none }

/-! ## Concrete inputs used to exercise the embeddings -/

/-- A snapshot whose `PORT` is the numeric string `"3.5"`. -/
def rawPortFloat : RawEnv :=
  { PORT := some "3.5", NATS_SERVERS := some "a", DB_URI := some "db", extras := [] }

/-- A host directory that has `pnpm-lock.yaml` but no `yarn.lock`. -/
def pnpmOnlyDir : DirState :=
  { emptyDir with hasPnpmLock := true }

/-- A fully-formed host project root: manifest, `node_modules`, lockfile. -/
def c5RootDir : DirState :=
  { emptyDir with
      packageJson := some { dependencies := [("joi", "^17.13.3")], devDependencies := [] }
      hasNodeModules := true
      hasYarnLock := true }

/-- An ancestor chain whose only project root sits one level above the
starting directory; two levels up there is nothing. -/
def c5Fs : Nat → DirState :=
  fun k => if k = 1 then c5RootDir else emptyDir

/-- The main manifest of a host that already has `joi` but not `dotenv`. -/
def mainPkg6 : PackageJson :=
  { dependencies := [("joi", "^17.13.3")], devDependencies := [] }

/-- This package's own manifest: it needs `dotenv` and `joi`. -/
def ownPkg6 : PackageJson :=
  { dependencies := [("dotenv", "^16.4.5"), ("joi", "^17.13.3")], devDependencies := [] }

/-- An ancestor chain whose directory two levels up is a host root carrying
both manifests. -/
def c6Fs : Nat → DirState :=
  fun k =>
    if k = 2 then
      { emptyDir with
          packageJson := some mainPkg6
          hasNodeModules := true
          envsValidatorPackageJson := some ownPkg6 }
    else emptyDir

/-- A host root two levels up with every needed dependency already
declared. -/
def c6FsSat : Nat → DirState :=
  fun k =>
    if k = 2 then
      { emptyDir with
          packageJson := some ownPkg6
          hasNodeModules := true
          envsValidatorPackageJson := some ownPkg6 }
    else emptyDir

end EnvsVal

namespace EnvsVal

/-! ## Helper lemmas -/

lemma firstEmptyIdx_eq_none_iff (l : List String) (i : Nat) :
    firstEmptyIdx l i = none ↔ ∀ x ∈ l, x ≠ "" := by
  induction l generalizing i with
  | nil => simp [firstEmptyIdx]
  | cons s rest ih =>
    by_cases hs : s = ""
    · simp [firstEmptyIdx, hs]
    · simp [firstEmptyIdx, hs, ih]

lemma envsSchemaValidate_ok_elim (o : TransformedEnv) (v : EnvVars)
    (h : envsSchemaValidate o = Except.ok v) :
    (∃ p, o.PORT = some p ∧ parseJoiNumber p = some v.PORT) ∧
      o.NATS_SERVERS = some v.NATS_SERVERS ∧ firstEmptyIdx v.NATS_SERVERS 0 = none ∧
      o.DB_URI = some v.DB_URI ∧ v.DB_URI ≠ "" := by
  unfold envsSchemaValidate at h
  rcases hP : o.PORT with _ | p
  · simp [hP] at h
  rcases hn : parseJoiNumber p with _ | port
  · simp [hP, hn] at h
  rcases hN : o.NATS_SERVERS with _ | ns
  · simp [hP, hn, hN] at h
  rcases hI : firstEmptyIdx ns 0 with _ | i
  case some => simp [hP, hn, hN, hI] at h
  rcases hD : o.DB_URI with _ | d
  · simp [hP, hn, hN, hI, hD] at h
  by_cases hd : d = ""
  · simp [hP, hn, hN, hI, hD, hd] at h
  simp only [hP, hn, hN, hI, hD, if_neg hd] at h
  injection h with h
  subst h
  exact ⟨⟨p, rfl, hn⟩, rfl, hI, rfl, hd⟩

lemma envs_ok_elim (raw : RawEnv) (c : Config) (h : envs raw = Except.ok c) :
    ∃ p ns, raw.PORT = some p ∧ parseJoiNumber p = some c.port ∧
      raw.NATS_SERVERS = some ns ∧ c.nats_servers = jsSplitComma ns ∧
      firstEmptyIdx (jsSplitComma ns) 0 = none ∧
      raw.DB_URI = some c.db_uri ∧ c.db_uri ≠ "" := by
  unfold envs at h
  rcases hv : envsSchemaValidate (transformEnv raw) with e | v
  · rw [hv] at h; exact Except.noConfusion h
  rw [hv] at h
  injection h with h
  obtain ⟨⟨p, hp1, hp2⟩, hN, hI, hD, hd⟩ := envsSchemaValidate_ok_elim _ _ hv
  have hport : c.port = v.PORT := by rw [← h]
  have hnats : c.nats_servers = v.NATS_SERVERS := by rw [← h]
  have hdb : c.db_uri = v.DB_URI := by rw [← h]
  rcases hNS : raw.NATS_SERVERS with _ | ns
  · exfalso
    have : natsSplit raw.NATS_SERVERS = some v.NATS_SERVERS := hN
    rw [hNS] at this
    exact Option.noConfusion this
  have hsplit : some (jsSplitComma ns) = some v.NATS_SERVERS := by
    have : natsSplit raw.NATS_SERVERS = some v.NATS_SERVERS := hN
    rw [hNS] at this
    exact this
  injection hsplit with hsplit
  refine ⟨p, ns, hp1, ?_, rfl, ?_, ?_, ?_, ?_⟩
  · rw [hport]; exact hp2
  · rw [hnats, hsplit]
  · rw [hsplit]; exact hI
  · rw [hdb]; exact hD
  · rw [hdb]; exact hd

lemma envs_error_shape (raw : RawEnv) :
    (∃ c, envs raw = Except.ok c) ∨
      ∃ m, envs raw = Except.error ("config validation error: " ++ m) := by
  unfold envs
  rcases hv : envsSchemaValidate (transformEnv raw) with e | v
  · exact Or.inr ⟨e, rfl⟩
  · exact Or.inl ⟨_, rfl⟩

lemma envs_not_ok_error (raw : RawEnv) (hno : ∀ c : Config, envs raw ≠ Except.ok c) :
    ∃ m, envs raw = Except.error ("config validation error: " ++ m) := by
  rcases envs_error_shape raw with ⟨c, hc⟩ | he
  · exact absurd hc (hno c)
  · exact he

lemma splitOnChar_append (sep : Char) (l1 l2 : List Char) (h : ∀ c ∈ l1, c ≠ sep) :
    splitOnChar sep (l1 ++ sep :: l2) = l1 :: splitOnChar sep l2 := by
  induction l1 with
  | nil => simp [splitOnChar]
  | cons c r ih =>
    have hc : c ≠ sep := h c (List.mem_cons_self c r)
    have ih2 := ih (fun x hx => h x (List.mem_cons_of_mem c hx))
    simp only [List.cons_append, splitOnChar, if_neg hc]
    have ih3 : splitOnChar sep (r.append (sep :: l2)) = r :: splitOnChar sep l2 := ih2
    rw [ih3]

lemma cutFirstField_of_append (sep : Char) (n v : String)
    (h : ∀ c ∈ n.data, c ≠ sep) :
    cutFirstField sep (n ++ String.mk [sep] ++ v) = n := by
  unfold cutFirstField
  rw [String.data_append, String.data_append]
  have : n.data ++ (String.mk [sep]).data ++ v.data = n.data ++ sep :: v.data := by
    simp
  rw [this, splitOnChar_append sep n.data v.data h]
  rfl

lemma append_sep_ne_empty (sep : Char) (n v : String) :
    n ++ String.mk [sep] ++ v ≠ "" := by
  intro h
  have h2 := congrArg String.data h
  rw [String.data_append, String.data_append] at h2
  have h3 : (n.data ++ [sep]) ++ v.data = ([] : List Char) := h2
  simp at h3

lemma MISSING_DEPS_mem (own main : PackageJson) (n v : String)
    (hpair : (n, v) ∈ own.dependencies ++ own.devDependencies)
    (hat : ∀ c ∈ n.data, c ≠ '@') :
    (n ++ "@" ++ v) ∈ MISSING_DEPS own main ↔ dependency_exists n main = false := by
  have hmk : ("@" : String) = String.mk ['@'] := rfl
  have hcut : cutFirstField '@' (n ++ "@" ++ v) = n := by
    rw [hmk]; exact cutFirstField_of_append '@' n v hat
  have hne0 : (n ++ "@" ++ v) ≠ "" := by
    rw [hmk]; exact append_sep_ne_empty '@' n v
  have hdeps : get_dependencies own "dependencies"
      = own.dependencies.map (fun kv => kv.1 ++ "@" ++ kv.2) := by
    unfold get_dependencies
    rw [if_pos rfl]
  have hdev : get_dependencies own "devDependencies"
      = own.devDependencies.map (fun kv => kv.1 ++ "@" ++ kv.2) := by
    unfold get_dependencies
    rw [if_neg (by decide), if_pos rfl]
  unfold MISSING_DEPS
  rw [hdeps, hdev, ← List.map_append, List.mem_filter]
  constructor
  · intro hmem
    have h2 := hmem.2
    simp only [hcut, Bool.and_eq_true, Bool.not_eq_true'] at h2
    exact h2.2
  · intro hnotex
    refine ⟨List.mem_map.mpr ⟨(n, v), hpair, rfl⟩, ?_⟩
    simp only [hcut, Bool.and_eq_true, Bool.not_eq_true']
    exact ⟨by simpa using hne0, hnotex⟩

lemma envs_ok_intro (raw : RawEnv) (p : String) (n : Rat) (ns d : String)
    (hP : raw.PORT = some p) (hn : parseJoiNumber p = some n)
    (hN : raw.NATS_SERVERS = some ns)
    (hne : ∀ x ∈ jsSplitComma ns, x ≠ "")
    (hD : raw.DB_URI = some d) (hd : d ≠ "") :
    envs raw = Except.ok { port := n, nats_servers := jsSplitComma ns, db_uri := d } := by
  have hI : firstEmptyIdx (jsSplitComma ns) 0 = none :=
    (firstEmptyIdx_eq_none_iff _ _).mpr hne
  unfold envs envsSchemaValidate transformEnv natsSplit
  simp only [hP, hn, hN, hD, hI, if_neg hd]

/-! ## The claims -/

/-- C1: for every raw snapshot whose `PORT` is a numeric string, whose
`NATS_SERVERS` splits on commas into well-typed (non-empty-string) elements,
and whose `DB_URI` is a non-empty string, the validator raises no error and
returns the configuration object whose `port` is the coerced number, whose
`nats_servers` is the comma-split list, and whose `db_uri` is the input
unchanged. -/
theorem C1_valid_snapshot_ok (raw : RawEnv) (p : String) (n : Rat) (ns d : String)
    (hP : raw.PORT = some p) (hn : parseJoiNumber p = some n)
    (hN : raw.NATS_SERVERS = some ns)
    (hne : ∀ x ∈ jsSplitComma ns, x ≠ "")
    (hD : raw.DB_URI = some d) (hd : d ≠ "") :
    envs raw = Except.ok { port := n, nats_servers := jsSplitComma ns, db_uri := d } :=
  envs_ok_intro raw p n ns d hP hn hN hne hD hd

theorem C1_valid_snapshot_ok_witness :
    envs { PORT := some "3000", NATS_SERVERS := some "a,b,c",
           DB_URI := some "mongodb://localhost", extras := [("FOO", "bar")] } =
      Except.ok { port := 3000, nats_servers := ["a", "b", "c"],
                  db_uri := "mongodb://localhost" } :=
  C1_valid_snapshot_ok
    { PORT := some "3000", NATS_SERVERS := some "a,b,c",
      DB_URI := some "mongodb://localhost", extras := [("FOO", "bar")] }
    "3000" 3000 "a,b,c" "mongodb://localhost" rfl (by decide) rfl (by decide) rfl (by decide)

/-- C2: on any schema violation — a required field missing, `PORT` not
parseable as a number, or `DB_URI` empty — the module signals the
configuration-validation error carrying the human-readable validation
message, and no configuration object is produced. -/
theorem C2_schema_violation_error (raw : RawEnv)
    (h : raw.PORT = none ∨ raw.NATS_SERVERS = none ∨ raw.DB_URI = none ∨
      (∃ p, raw.PORT = some p ∧ parseJoiNumber p = none) ∨ raw.DB_URI = some "") :
    (∀ c : Config, envs raw ≠ Except.ok c) ∧
      ∃ m, envs raw = Except.error ("config validation error: " ++ m) := by
  have hno : ∀ c : Config, envs raw ≠ Except.ok c := by
    intro c hc
    obtain ⟨p, ns, hp1, hp2, hN, _, _, hD, hd⟩ := envs_ok_elim raw c hc
    rcases h with h | h | h | ⟨q, hq1, hq2⟩ | h
    · rw [h] at hp1; exact Option.noConfusion hp1
    · rw [h] at hN; exact Option.noConfusion hN
    · rw [h] at hD; exact Option.noConfusion hD
    · rw [hq1] at hp1
      injection hp1 with hpq
      rw [← hpq] at hp2
      rw [hq2] at hp2
      exact Option.noConfusion hp2
    · rw [h] at hD
      injection hD with h2
      exact hd h2.symm
  exact ⟨hno, envs_not_ok_error raw hno⟩

theorem C2_schema_violation_error_witness :
    envs { PORT := none, NATS_SERVERS := some "a", DB_URI := some "db", extras := [] } ≠
      Except.ok { port := 3000, nats_servers := ["a"], db_uri := "db" } :=
  (C2_schema_violation_error
    { PORT := none, NATS_SERVERS := some "a", DB_URI := some "db", extras := [] }
    (Or.inl rfl)).1 { port := 3000, nats_servers := ["a"], db_uri := "db" }

/-- C3: the pre-transform splits `NATS_SERVERS` on the comma character —
`"a,b,c"` becomes `["a","b","c"]` and `"single"` becomes `["single"]` —
and when `NATS_SERVERS` is absent the field stays undefined, so validation
produces no configuration object, and (whenever `PORT` passes its own check
first, joi aborting on the earliest violation) fails precisely with the
missing-required-field message for `NATS_SERVERS`. -/
theorem C3_nats_comma_split (raw : RawEnv) (habs : raw.NATS_SERVERS = none) :
    jsSplitComma "a,b,c" = ["a", "b", "c"] ∧
      jsSplitComma "single" = ["single"] ∧
      natsSplit raw.NATS_SERVERS = none ∧
      (∀ c : Config, envs raw ≠ Except.ok c) ∧
      (∀ p n, raw.PORT = some p → parseJoiNumber p = some n →
        envs raw = Except.error ("config validation error: " ++ "\"NATS_SERVERS\" is required")) := by
  refine ⟨by decide, by decide, by rw [habs]; rfl, ?_, ?_⟩
  · intro c hc
    obtain ⟨_, ns, _, _, hN, _⟩ := envs_ok_elim raw c hc
    rw [habs] at hN
    exact Option.noConfusion hN
  · intro p n hp hn
    unfold envs envsSchemaValidate transformEnv natsSplit
    simp only [hp, hn, habs]

theorem C3_nats_comma_split_witness :
    envs { PORT := some "4222", NATS_SERVERS := none, DB_URI := some "db", extras := [] } =
      Except.error ("config validation error: " ++ "\"NATS_SERVERS\" is required") :=
  ((C3_nats_comma_split
    { PORT := some "4222", NATS_SERVERS := none, DB_URI := some "db", extras := [] }
    rfl).2.2.2.2) "4222" 4222 rfl (by decide)

/-- C7 counterexample: the snapshot `PORT="3.5"` (with valid `NATS_SERVERS`
and `DB_URI`) validates successfully, and the produced `port` is `7/2`, a
rational with denominator `2` — not an integer.  The schema is
`joi.number()`, not `joi.number().integer()`. -/
theorem C7_counterexample_port_float :
    envs rawPortFloat =
      Except.ok { port := mkRat 7 2, nats_servers := ["a"], db_uri := "db" } ∧
      (mkRat 7 2).den = 2 ∧ (mkRat 7 2).den ≠ 1 := by
  exact ⟨by decide, by decide, by decide⟩

/-- C7 amended: for every snapshot on which validation succeeds, the `port`
field of the produced configuration object is the number joi coerced from
the `PORT` string — a number, but not necessarily an integer. -/
theorem C7_amended_port_is_parsed_number (raw : RawEnv) (c : Config) (p : String)
    (h : envs raw = Except.ok c) (hp : raw.PORT = some p) :
    parseJoiNumber p = some c.port := by
  obtain ⟨q, ns, hq1, hq2, _⟩ := envs_ok_elim raw c h
  rw [hp] at hq1
  injection hq1 with hq1
  rw [hq1]
  exact hq2

theorem C7_amended_port_is_parsed_number_witness :
    parseJoiNumber "3.5" =
      some (Config.mk (mkRat 7 2) ["a"] "db").port :=
  C7_amended_port_is_parsed_number rawPortFloat
    { port := mkRat 7 2, nats_servers := ["a"], db_uri := "db" } "3.5" (by decide) rfl

/-- C8: whenever `DB_URI` is present but equal to the empty string,
validation fails (`joi.string()` rejects the empty string) and no
configuration object is produced. -/
theorem C8_empty_db_uri_fails (raw : RawEnv) (h : raw.DB_URI = some "") :
    (∀ c : Config, envs raw ≠ Except.ok c) ∧
      ∃ m, envs raw = Except.error ("config validation error: " ++ m) := by
  have hno : ∀ c : Config, envs raw ≠ Except.ok c := by
    intro c hc
    obtain ⟨_, _, _, _, _, _, _, hD, hd⟩ := envs_ok_elim raw c hc
    rw [h] at hD
    injection hD with h2
    exact hd h2.symm
  exact ⟨hno, envs_not_ok_error raw hno⟩

theorem C8_empty_db_uri_fails_witness :
    envs { PORT := some "1", NATS_SERVERS := some "a", DB_URI := some "", extras := [] } ≠
      Except.ok { port := 1, nats_servers := ["a"], db_uri := "" } :=
  (C8_empty_db_uri_fails
    { PORT := some "1", NATS_SERVERS := some "a", DB_URI := some "", extras := [] }
    rfl).1 { port := 1, nats_servers := ["a"], db_uri := "" }

/-- C9: environment variables not declared in the schema never influence
validation — the result of `envs` is the same whatever the `extras` are —
and the produced configuration object consists of exactly the three fields
`port`, `nats_servers`, `db_uri` and no others. -/
theorem C9_unknown_vars_ignored :
    (∀ (raw : RawEnv) (ex : List (String × String)),
      envs { raw with extras := ex } = envs raw) ∧
    (∀ c : Config,
      c = { port := c.port, nats_servers := c.nats_servers, db_uri := c.db_uri }) :=
  ⟨fun _ _ => rfl, fun _ => rfl⟩

/-- C10: when `NATS_SERVERS` is present but empty, the split yields `[""]`,
whose single element is rejected by the item schema, so validation produces
no configuration object; when `PORT` passes its own check first, the error
is precisely the empty-item message for `NATS_SERVERS[0]`. -/
theorem C10_empty_nats_fails (raw : RawEnv) (h : raw.NATS_SERVERS = some "") :
    jsSplitComma "" = [""] ∧
      (∀ c : Config, envs raw ≠ Except.ok c) ∧
      (∀ p n, raw.PORT = some p → parseJoiNumber p = some n →
        envs raw = Except.error ("config validation error: " ++
          "\"NATS_SERVERS[0]\" is not allowed to be empty")) := by
  refine ⟨by decide, ?_, ?_⟩
  · intro c hc
    obtain ⟨_, ns, _, _, hN, _, hI, _⟩ := envs_ok_elim raw c hc
    rw [h] at hN
    injection hN with hN
    rw [← hN] at hI
    rw [show jsSplitComma "" = [""] by decide] at hI
    exact absurd hI (by decide)
  · intro p n hp hn
    unfold envs envsSchemaValidate transformEnv natsSplit
    simp only [hp, hn, h]
    rfl

theorem C10_empty_nats_fails_witness :
    envs { PORT := some "1", NATS_SERVERS := some "", DB_URI := some "db", extras := [] } =
      Except.error ("config validation error: " ++
        "\"NATS_SERVERS[0]\" is not allowed to be empty") :=
  ((C10_empty_nats_fails
    { PORT := some "1", NATS_SERVERS := some "", DB_URI := some "db", extras := [] }
    rfl).2.2) "1" 1 rfl (by decide)

/-- C4: the claim says a host with `pnpm-lock.yaml` and no `yarn.lock`
detects `pnpm`; the script's malformed bracket test (see `pnpmBracketTest`)
makes the pnpm branch unreachable, so detection yields `npm` there — even
when `pnpm-workspace.yaml` is present as well. -/
theorem C4_pnpm_detection_broken :
    detect_package_manager pnpmOnlyDir = "npm" ∧
      detect_package_manager { pnpmOnlyDir with hasPnpmWorkspace := true } = "npm" ∧
      "npm" ≠ "pnpm" :=
  ⟨by decide, by decide, by decide⟩

/-- C5 counterexample: an ancestor chain whose genuine project root
(manifest + `node_modules` + lockfile) sits one level up.  The upward search
the claim describes finds it (at distance 1, well within any bound), yet the
script — which never searches and just assumes `../../` — exits non-zero,
and its diagnostic is not "project root not found". -/
theorem C5_counterexample_no_search :
    specProjectRootSearch c5Fs 32 = some 1 ∧
      runPostInstall c5Fs =
        ScriptResult.exited 1 "Error: Main package.json not found in root directory" ∧
      "Error: Main package.json not found in root directory" ≠ "project root not found" :=
  ⟨by decide, by decide, by decide⟩

/-- C5 amended: the installer does not search upward at all; it operates
from the directory exactly two levels above its own, and when that directory
has no manifest it exits non-zero with the diagnostic
"Error: Main package.json not found in root directory". -/
theorem C5_amended_fixed_two_levels_up (fs : Nat → DirState)
    (h : (fs 2).packageJson = none) :
    runPostInstall fs =
      ScriptResult.exited 1 "Error: Main package.json not found in root directory" := by
  unfold runPostInstall
  simp only [h]

theorem C5_amended_fixed_two_levels_up_witness :
    runPostInstall c5Fs =
      ScriptResult.exited 1 "Error: Main package.json not found in root directory" :=
  C5_amended_fixed_two_levels_up c5Fs rfl

/-- C6: with both manifests present two levels up, the script collects into
`MISSING_DEPS` exactly those declared dependencies (from `dependencies` and
`devDependencies` of its own manifest) whose names the host manifest does
not declare under either category; when that set is empty the add operation
is never invoked and the script reports everything already satisfied, and
when it is non-empty a single add/install invocation receives the full
missing set. -/
theorem C6_dependency_reconciliation (fs : Nat → DirState) (main own : PackageJson)
    (hm : (fs 2).packageJson = some main)
    (ho : (fs 2).envsValidatorPackageJson = some own) :
    (MISSING_DEPS own main = [] → runPostInstall fs = ScriptResult.alreadySatisfied) ∧
    (MISSING_DEPS own main ≠ [] →
      ∃ pm verb, runPostInstall fs =
        ScriptResult.installed pm verb (MISSING_DEPS own main)) ∧
    (∀ n v, (n, v) ∈ own.dependencies ++ own.devDependencies →
      (∀ ch ∈ n.data, ch ≠ '@') →
      ((n ++ "@" ++ v) ∈ MISSING_DEPS own main ↔ dependency_exists n main = false)) := by
  have hrun : runPostInstall fs =
      installStep (detect_package_manager (fs 2)) (MISSING_DEPS own main) := by
    unfold runPostInstall
    simp only [hm, ho]
  refine ⟨?_, ?_, fun n v hp hat => MISSING_DEPS_mem own main n v hp hat⟩
  · intro h0
    rw [hrun, h0]
    unfold installStep
    rw [if_pos rfl]
  · intro hne
    by_cases hy : (fs 2).hasYarnLock
    · have hdet : detect_package_manager (fs 2) = "yarn" := by
        unfold detect_package_manager
        rw [if_pos hy]
      refine ⟨"yarn", "add", ?_⟩
      rw [hrun, hdet]
      unfold installStep
      rw [if_neg hne, if_pos rfl]
    · have hdet : detect_package_manager (fs 2) = "npm" := by
        unfold detect_package_manager pnpmBracketTest
        rw [if_neg hy]
        rfl
      refine ⟨"npm", "install", ?_⟩
      rw [hrun, hdet]
      unfold installStep
      rw [if_neg hne, if_neg (by decide), if_neg (by decide), if_pos rfl]

theorem C6_dependency_reconciliation_witness :
    (("dotenv" ++ "@" ++ "^16.4.5") ∈ MISSING_DEPS ownPkg6 mainPkg6 ↔
      dependency_exists "dotenv" mainPkg6 = false) ∧
    (("joi" ++ "@" ++ "^17.13.3") ∈ MISSING_DEPS ownPkg6 mainPkg6 ↔
      dependency_exists "joi" mainPkg6 = false) :=
  ⟨(C6_dependency_reconciliation c6Fs mainPkg6 ownPkg6 rfl rfl).2.2
      "dotenv" "^16.4.5" (by decide) (by decide),
   (C6_dependency_reconciliation c6Fs mainPkg6 ownPkg6 rfl rfl).2.2
      "joi" "^17.13.3" (by decide) (by decide)⟩

end EnvsVal
